import Mathlib

/-!
Verification of the BevyStein environment control bridge (src/gym.rs)
against its natural-language specification.

Shallow embedding conventions:
  * machine integers (u32) are modelled as Nat, with an explicit `% 2 ^ 32`
    where the source performs arithmetic that can overflow;
  * f32 reward values are modelled as rationals (the source only stores,
    indexes and subtracts them);
  * Rust `String` values are modelled by their UTF-8 byte sequences
    (List Nat), which is exactly the representation `String::from_utf8`
    validates and preserves;
  * a Rust function that can panic (`unwrap` on `None` / `Err`, explicit
    `panic!`) is modelled as an Option-returning function, `none` meaning
    the call panics and produces no result and no state update;
  * the Gotham HTTP handlers `screen`, `step`, `reset` are modelled as
    functions of the shared `AIGymState` they lock; the `step` polling
    loop is modelled both as a function of the sequence of states the
    loop observes at each lock acquisition, and relationally against a
    tick-gate transition system for the interleaving claims.
-/

namespace BevyStein

/-- An RGBA image (`image::RgbaImage`): width, height and raw byte data. -/
structure Image where
  width : Nat
  height : Nat
  data : List Nat
deriving DecidableEq

/-- gym.rs lines 45-49: frame size settings. -/
structure AIGymSettings where
  width : Nat
  height : Nat
deriving DecidableEq

/-- gym.rs lines 55-72: the shared environment state guarded by the mutex.
Render-target handles are opaque; we model them as optional numeric ids.
`__action_unparsed_string` is a Rust `String`, modelled by its UTF-8 bytes.
Defaults mirror `#[derive(Default)]` (line 55): all fields empty / false. -/
structure AIGymState (T : Type) where
  __render_target : Option Nat := none
  __render_image_handle : Option Nat := none
  __is_environment_paused : Bool := false
  __action_unparsed_string : List Nat := []
  __request_for_reset : Bool := false
  screen : Option Image := none
  rewards : List ℚ := []
  action : Option T := none
  is_terminated : Bool := false

deriving instance DecidableEq for AIGymState

/-- The all-default shared state the process starts with. -/
def initialState (T : Type) : AIGymState T := {}

-- ---------------------------------------------------------------------
-- texture_image_layout (gym.rs lines 186-204)
-- ---------------------------------------------------------------------

/-- wgpu `Extent3d`: u32 fields modelled as Nat values below 2 ^ 32. -/
structure Extent3d where
  width : Nat
  height : Nat
  depth_or_array_layers : Nat := 1
deriving DecidableEq

/-- The texture formats this repository uses (gym.rs lines 247 and 311). -/
inductive TextureFormat where
  | Rgba8UnormSrgb
  | Bgra8UnormSrgb
deriving DecidableEq

/-- `desc.format.describe().block_size` : both formats are 4 bytes per pixel. -/
def TextureFormat.block_size : TextureFormat → Nat
  | TextureFormat.Rgba8UnormSrgb => 4
  | TextureFormat.Bgra8UnormSrgb => 4

/-- The fields of wgpu `TextureDescriptor` that `texture_image_layout` reads. -/
structure TextureDescriptor where
  size : Extent3d
  format : TextureFormat
  mip_level_count : Nat := 1
  sample_count : Nat := 1
deriving DecidableEq

/-- wgpu `ImageDataLayout`; `bytes_per_row` and `rows_per_image` hold
`Option<NonZeroU32>` values, modelled as `Option Nat` whose payload is
never zero. `..Default::default()` gives `offset = 0`. -/
structure ImageDataLayout where
  offset : Nat := 0
  bytes_per_row : Option Nat := none
  rows_per_image : Option Nat := none
deriving DecidableEq

/-- `NonZeroU32::new`: `none` exactly on input 0. -/
def NonZeroU32_new (n : Nat) : Option Nat :=
  if n = 0 then none else some n

/-- u32 multiplication with wrap-around, as performed by
`size.width * (desc.format.describe().block_size as u32)`. -/
def u32_mul (a b : Nat) : Nat := (a * b) % 2 ^ 32

/-- gym.rs lines 186-204, `texture_image_layout`. -/
def texture_image_layout (desc : TextureDescriptor) : ImageDataLayout :=
  { bytes_per_row :=
      if desc.size.height > 1 then
        NonZeroU32_new (u32_mul desc.size.width desc.format.block_size)
      else
        none,
    rows_per_image :=
      if desc.size.depth_or_array_layers > 1 then
        NonZeroU32_new desc.size.height
      else
        none }

-- ---------------------------------------------------------------------
-- save_image (gym.rs lines 206-289)
-- ---------------------------------------------------------------------

/-- The fields of the bevy `GpuImage` render asset that `save_image` reads. -/
structure GpuImage where
  width : Nat
  height : Nat
deriving DecidableEq

/-- gym.rs lines 206-289, `save_image`, as a function of the shared state:
the GPU interaction is summarised by its observable inputs, namely the
outcome `mapResult` of the buffer mapping awaited on line 268 and the
bytes `mappedBytes` read back from the staging buffer on lines 275-276.
`none` models a panic:
  * line 216 unwraps `__render_image_handle`;
  * lines 270-273 `panic!` when the map result is an error, BEFORE any
    write to `screen`;
  * lines 282-287 unwrap `ImageBuffer::from_raw`, which is `None` when
    the byte buffer is smaller than `width * height * 4`.
Only the success path (line 288) stores the captured frame. -/
def save_image {T : Type} (s : AIGymState T) (gpu_image : GpuImage)
    (mapResult : Except String Unit) (mappedBytes : List Nat) :
    Option (AIGymState T) :=
  match s.__render_image_handle with
  | none => none
  | some _ =>
    match mapResult with
    | Except.error _ => none
    | Except.ok _ =>
      if gpu_image.width * gpu_image.height * 4 ≤ mappedBytes.length then
        some { s with
                 screen := some
                   { width := gpu_image.width,
                     height := gpu_image.height,
                     data := mappedBytes } }
      else
        none

-- ---------------------------------------------------------------------
-- Lock-discipline traces (for the claims about holding the mutex)
-- ---------------------------------------------------------------------

/-- Abstract events of a routine, in source order: mutex acquisition and
release, a GPU command submission, a blocking wait, and any other
non-blocking operation. -/
inductive LockEv where
  | acquire
  | release
  | gpuSubmit
  | blockingWait
  | pureOp
deriving DecidableEq

/-- Scan of an event list with current lock depth `d`: `true` when some
GPU submission or blocking wait happens while the lock is held. -/
def blockedWhileHeld : Nat → List LockEv → Bool
  | _, [] => false
  | d, LockEv.acquire :: tr => blockedWhileHeld (d + 1) tr
  | d, LockEv.release :: tr => blockedWhileHeld (d - 1) tr
  | d, LockEv.gpuSubmit :: tr => decide (0 < d) || blockedWhileHeld d tr
  | d, LockEv.blockingWait :: tr => decide (0 < d) || blockedWhileHeld d tr
  | d, LockEv.pureOp :: tr => blockedWhileHeld d tr

/-- A routine never performs a blocking operation while holding the lock
when this is `false`, starting unlocked. -/
def heldAcrossBlocking (tr : List LockEv) : Bool := blockedWhileHeld 0 tr

/-- gym.rs lines 206-289: the event sequence of one `save_image` call.
The `MutexGuard` is created on line 213, before any GPU work, and is
dropped only when the function returns after line 288. -/
def save_image_events : List LockEv :=
  [LockEv.acquire,       -- line 213: ai_gym_state.lock().unwrap()
   LockEv.pureOp,        -- lines 215-217: gpu_images.get(..)
   LockEv.pureOp,        -- lines 221-226: device.create_buffer(..)
   LockEv.pureOp,        -- lines 230-260: create encoder, record copy
   LockEv.gpuSubmit,     -- line 262: render_queue.submit(..)
   LockEv.pureOp,        -- lines 264-265: slice(..), map_async(..)
   LockEv.blockingWait,  -- line 266: device.poll(wgpu::Maintain::Wait)
   LockEv.blockingWait,  -- line 268: executor::block_on(buffer_future)
   LockEv.pureOp,        -- lines 275-288: read bytes, unmap, store frame
   LockEv.release]       -- end of function: guard dropped

/-- gym.rs lines 411-426: one iteration of the `step` polling loop.
The guard is created at the top of the loop body (line 412) and dropped
at the end of that same iteration. -/
def step_poll_iteration_events : List LockEv :=
  [LockEv.acquire,  -- line 412: state_.inner.lock().unwrap()
   LockEv.pureOp,   -- lines 414-425: read flags and rewards
   LockEv.release]  -- end of loop body: guard dropped

/-- The event sequence of `n` non-breaking iterations of the `step` wait. -/
def step_wait_events : Nat → List LockEv
  | 0 => []
  | n + 1 => step_poll_iteration_events ++ step_wait_events n

-- ---------------------------------------------------------------------
-- UTF-8 validation (Rust String::from_utf8, used on gym.rs line 400)
-- ---------------------------------------------------------------------

/-- UTF-8 continuation byte: 0x80 to 0xBF. -/
def isUtf8Cont (b : Nat) : Bool := 128 ≤ b && b < 192

/-- Validity of a byte sequence as UTF-8, exactly the check performed by
`String::from_utf8` (well-formed UTF-8 per RFC 3629: no overlong forms,
no surrogates, nothing above U+10FFFF). -/
def utf8Valid : List Nat → Bool
  | [] => true
  | b :: rest =>
    if b < 128 then utf8Valid rest
    else if b < 194 then false
    else if b < 224 then
      match rest with
      | c1 :: rest1 => isUtf8Cont c1 && utf8Valid rest1
      | [] => false
    else if b = 224 then
      match rest with
      | c1 :: c2 :: rest1 =>
        (160 ≤ c1 && c1 < 192) && isUtf8Cont c2 && utf8Valid rest1
      | _ => false
    else if b = 237 then
      match rest with
      | c1 :: c2 :: rest1 =>
        (128 ≤ c1 && c1 < 160) && isUtf8Cont c2 && utf8Valid rest1
      | _ => false
    else if b < 240 then
      match rest with
      | c1 :: c2 :: rest1 =>
        isUtf8Cont c1 && isUtf8Cont c2 && utf8Valid rest1
      | _ => false
    else if b = 240 then
      match rest with
      | c1 :: c2 :: c3 :: rest1 =>
        (144 ≤ c1 && c1 < 192) && isUtf8Cont c2 && isUtf8Cont c3 &&
          utf8Valid rest1
      | _ => false
    else if b < 244 then
      match rest with
      | c1 :: c2 :: c3 :: rest1 =>
        isUtf8Cont c1 && isUtf8Cont c2 && isUtf8Cont c3 && utf8Valid rest1
      | _ => false
    else if b = 244 then
      match rest with
      | c1 :: c2 :: c3 :: rest1 =>
        (128 ≤ c1 && c1 < 144) && isUtf8Cont c2 && isUtf8Cont c3 &&
          utf8Valid rest1
      | _ => false
    else false

-- ---------------------------------------------------------------------
-- HTTP handlers (gym.rs lines 379-446)
-- ---------------------------------------------------------------------

/-- The content types this code can attach to a response. -/
inductive Mime where
  | textPlain
  | imagePng
deriving DecidableEq

/-- Whether a content type is an image content type. -/
def Mime.isImage : Mime → Bool
  | Mime.textPlain => false
  | Mime.imagePng => true

/-- An HTTP response: status code, content type, body bytes. -/
structure HttpResponse where
  status : Nat
  mime : Mime
  body : List Nat
deriving DecidableEq

/-- gym.rs lines 379-394, the `screen` handler (GET /screen.png).
`write_png` stands for the external `image` crate PNG encoder invoked on
lines 387-389 (out-of-scope library code); the handler is agnostic to its
output. The handler locks the shared state, clones it, and unwraps
`screen` — `none` models the panic of `unwrap()` on line 384 when no
frame has ever been captured. On success it returns status OK with the
encoded bytes and content type `mime::TEXT_PLAIN` (line 391), and the
shared state is returned unchanged (the handler never writes it). -/
def screen {T : Type} (write_png : Image → List Nat) (s : AIGymState T) :
    Option (HttpResponse × AIGymState T) :=
  match s.screen with
  | none => none
  | some img =>
    some ({ status := 200, mime := Mime.textPlain, body := write_png img }, s)

/-- gym.rs lines 398-407: the write phase of the `step` handler.
The request body bytes are passed through `String::from_utf8(..).unwrap()`
(line 400) — `none` models the panic on a body that is not valid UTF-8.
On success the handler locks the shared state and stores the string
(same bytes) into `__action_unparsed_string`, touching nothing else. -/
def stepWrite {T : Type} (body : List Nat) (s : AIGymState T) :
    Option (AIGymState T) :=
  if utf8Valid body then
    some { s with __action_unparsed_string := body }
  else
    none

/-- gym.rs lines 409-426: the reward computed at the break of the polling
loop, from the rewards list of the state observed there.
`reward` starts at 0.0 (line 409); if the list is non-empty it becomes
the last entry (lines 415-417); if the list has more than one entry the
second-to-last entry is subtracted (lines 418-420). -/
def stepReward (rewards : List ℚ) : ℚ :=
  let reward : ℚ := 0
  let reward :=
    if rewards.length > 0 then rewards.getD (rewards.length - 1) 0 else reward
  let reward :=
    if rewards.length > 1 then
      reward - rewards.getD (rewards.length - 2) 0
    else reward
  reward

/-- gym.rs lines 411-426: the polling loop of `step`, as a function of
the sequence of shared-state values the loop observes at its successive
lock acquisitions. It returns at the first observed state whose
`__is_environment_paused` is true, yielding the reward computed from
that state and its `is_terminated` flag; `none` means the loop never
breaks within the observed sequence (the call blocks). -/
def stepPoll {T : Type} : List (AIGymState T) → Option (ℚ × Bool)
  | [] => none
  | s :: rest =>
    if s.__is_environment_paused then
      some (stepReward s.rewards, s.is_terminated)
    else
      stepPoll rest

/-- gym.rs lines 395-435: the whole `step` handler: decode and store the
body, then poll; `trace` is the sequence of shared states observed by
the polling loop after the write. -/
def step {T : Type} (body : List Nat) (s0 : AIGymState T)
    (trace : List (AIGymState T)) : Option (ℚ × Bool) :=
  match stepWrite body s0 with
  | none => none
  | some _ => stepPoll trace

/-- gym.rs lines 437-446, the `reset` handler (POST /reset): locks the
shared state, sets `__request_for_reset` to true, releases, and
immediately returns the plain acknowledgement body. -/
def reset {T : Type} (s : AIGymState T) : AIGymState T × String :=
  ({ s with __request_for_reset := true }, "ok")

-- ---------------------------------------------------------------------
-- Simulation Tick Gate, modelled from the spec (the systems that consume
-- the pending action live in control.rs / game.rs, which are not under
-- src/), and the interleaving of the step handler with it.
-- ---------------------------------------------------------------------

/-- Modelled from the spec: one tick of the Simulation Tick Gate, whose
code (control.rs / game.rs) is not under src/. Spec section 4.3: if
`reset_requested` is set, the tick clears `rewards`, `is_terminated`,
`pending_action` and `reset_requested` and sets `is_paused = false`
(Resetting); in the Paused-Terminal state new actions are ignored until
reset; otherwise, if a pending action is present the gate consumes it
(clears the slot, parses it via the external game collaborator `parse`),
applies it, appends the reward of the tick, sets `is_terminated` when the
episode-ending condition holds, and sets `is_paused = true`. The
externally computed outcome of the tick is summarised by the parameters
`tickReward` and `tickTerm`. With no reset and no pending action the
tick is a pure render advance leaving the state unchanged. -/
def gateTick {T : Type} (parse : List Nat → Option T) (tickReward : ℚ)
    (tickTerm : Bool) (s : AIGymState T) : AIGymState T :=
  if s.__request_for_reset then
    { s with
        rewards := [],
        is_terminated := false,
        action := none,
        __action_unparsed_string := [],
        __request_for_reset := false,
        __is_environment_paused := false }
  else if s.is_terminated then s
  else if s.__action_unparsed_string ≠ [] then
    { s with
        __action_unparsed_string := [],
        action := parse s.__action_unparsed_string,
        rewards := s.rewards ++ [tickReward],
        is_terminated := tickTerm,
        __is_environment_paused := true }
  else s

/-- One transition of the simulation thread: some gate tick runs, with
some externally determined reward and termination outcome. -/
inductive GateStep {T : Type} (parse : List Nat → Option T) :
    AIGymState T → AIGymState T → Prop where
  | tick (tickReward : ℚ) (tickTerm : Bool) (s : AIGymState T) :
      GateStep parse s (gateTick parse tickReward tickTerm s)

/-- Zero or more gate ticks: what the simulation thread may do between
two successive lock acquisitions by the step handler. -/
def GateReach {T : Type} (parse : List Nat → Option T) :
    AIGymState T → AIGymState T → Prop :=
  Relation.ReflTransGen (GateStep parse)

/-- Relational semantics of the polling loop (gym.rs lines 411-426)
interleaved with the gate: from an observed state `s`, the loop either
breaks there when `__is_environment_paused` holds — returning the reward
computed from that very state and its termination flag — or, when the
flag is false, releases the lock, the gate runs zero or more ticks, and
the loop observes the resulting state next. `PollRet parse s out sf`
reads: started at observation `s`, the loop returns `out`, breaking at
the observed state `sf`. -/
inductive PollRet {T : Type} (parse : List Nat → Option T) :
    AIGymState T → ℚ × Bool → AIGymState T → Prop where
  | ret (s : AIGymState T) (h : s.__is_environment_paused = true) :
      PollRet parse s (stepReward s.rewards, s.is_terminated) s
  | skip (s s2 sf : AIGymState T) (out : ℚ × Bool)
      (h : s.__is_environment_paused = false)
      (hg : GateReach parse s s2) (hp : PollRet parse s2 out sf) :
      PollRet parse s out sf

/-- A complete interleaved execution of the `step` handler: the body is
decoded and stored into the shared state (gym.rs lines 398-407), the
lock is released, the gate may run zero or more ticks, and the polling
loop then runs to its break, returning `out` with break state `sf`. -/
def StepExec {T : Type} (parse : List Nat → Option T) (body : List Nat)
    (s0 : AIGymState T) (out : ℚ × Bool) (sf : AIGymState T) : Prop :=
  ∃ s1 s2, stepWrite body s0 = some s1 ∧ GateReach parse s1 s2 ∧
    PollRet parse s2 out sf

/-- The trivial action parser used to instantiate the gate at `T = Unit`
in concrete executions. -/
def unitParse : List Nat → Option Unit := fun _ => some ()

-- ---------------------------------------------------------------------
-- Concrete inputs used by the theorems below
-- ---------------------------------------------------------------------

/-- A concrete stand-in for the external PNG encoder: the PNG signature
prefix followed by the raw pixel data. Only used to instantiate the
encoder parameter of `screen` at concrete inputs. -/
def png_stub (img : Image) : List Nat := 137 :: 80 :: 78 :: 71 :: img.data

/-- The UTF-8 bytes of the action payload string used in the spec
scenario, namely the seven ASCII characters of the word forward. -/
def forwardBytes : List Nat := [102, 111, 114, 119, 97, 114, 100]

/-- A shared state as observed at the end of a completed tick: paused,
not terminated, with reward history `rs`. -/
def pausedState (rs : List ℚ) : AIGymState Unit :=
  { __is_environment_paused := true, rewards := rs }

/-- The shared state left over after a first completed epoch: paused,
reward history [1], no pending action. -/
def stalePrevState : AIGymState Unit :=
  { __is_environment_paused := true, rewards := [1] }

/-- `stalePrevState` right after the step handler stored the forward
payload: the pause flag is still true and the rewards are still those of
the previous epoch. -/
def staleWrittenState : AIGymState Unit :=
  { __is_environment_paused := true, rewards := [1],
    __action_unparsed_string := forwardBytes }

/-- A texture descriptor with zero width and height 2, single layer. -/
def zeroWidthDesc : TextureDescriptor :=
  { size := { width := 0, height := 2, depth_or_array_layers := 1 },
    format := TextureFormat.Rgba8UnormSrgb }

/-- The 512 by 512 RGBA descriptor the repository renders to
(gym.rs lines 299-318 with the settings of the spec scenario). -/
def desc512 : TextureDescriptor :=
  { size := { width := 512, height := 512, depth_or_array_layers := 1 },
    format := TextureFormat.Rgba8UnormSrgb }

/-- A concrete one-pixel captured frame. -/
def testImage : Image := { width := 1, height := 1, data := [255, 0, 0, 255] }

/-- A shared state holding a captured frame. -/
def framedState : AIGymState Unit := { screen := some testImage }

/-- A shared state whose render-image handle has been set at startup. -/
def handleState : AIGymState Unit := { __render_image_handle := some 0 }

/-- The state `save_image` publishes from `handleState` for a 1 by 1
frame whose mapped bytes are [0, 0, 0, 0]. -/
def publishedState : AIGymState Unit :=
  { handleState with
      screen := some { width := 1, height := 1, data := [0, 0, 0, 0] } }

-- ---------------------------------------------------------------------
-- Theorems
-- ---------------------------------------------------------------------

/-- Helper: on a list with at least two entries, the reward computed at
the break of the polling loop is the last entry minus the one before. -/
theorem stepReward_append (l : List ℚ) (a b : ℚ) :
    stepReward (l ++ [a, b]) = b - a := by
  have hb : (l ++ [a, b]).getD (l.length + 1) 0 = b := by
    rw [List.getD_append_right _ _ _ _ (by omega : l.length ≤ l.length + 1)]
    simp
  have ha : (l ++ [a, b]).getD l.length 0 = a := by
    rw [List.getD_append_right _ _ _ _ le_rfl]
    simp
  simp only [stepReward, List.length_append, List.length_cons,
    List.length_nil, List.length_singleton]
  norm_num
  rw [List.getElem_append_right (by omega), List.getElem_append_right (by omega)]
  simp

/-- Helper: on a one-entry list the computed reward is that entry. -/
theorem stepReward_singleton (a : ℚ) : stepReward [a] = a := by
  simp [stepReward]

/-- C1: every returning step call computes its reward as the last entry
of the recorded rewards minus the second-to-last when at least two
entries exist, the single entry when exactly one exists, and 0 when the
list is empty; with recorded reward sequences [1.0], [1.0, 1.5] and
[1.0, 1.5, 1.5] at the respective poll breaks, three step calls on the
forward payload return rewards 1.0, 0.5 and 0.0 with is_terminated
false. -/
theorem C1_step_reward_correct :
    stepReward ([] : List ℚ) = 0
    ∧ (∀ a : ℚ, stepReward [a] = a)
    ∧ (∀ (l : List ℚ) (a b : ℚ), stepReward (l ++ [a, b]) = b - a)
    ∧ step forwardBytes (initialState Unit) [pausedState [1]] =
        some (1, false)
    ∧ step forwardBytes (initialState Unit) [pausedState [1, 3/2]] =
        some (1/2, false)
    ∧ step forwardBytes (initialState Unit) [pausedState [1, 3/2, 3/2]] =
        some (0, false) := by
  have hstep : ∀ rs : List ℚ,
      step forwardBytes (initialState Unit) [pausedState rs] =
        some (stepReward rs, false) := by
    intro rs
    simp [step, stepWrite, stepPoll, pausedState,
      (by decide : utf8Valid forwardBytes = true)]
  refine ⟨by decide, stepReward_singleton, stepReward_append, ?_, ?_, ?_⟩
  · rw [hstep]
    norm_num [stepReward]
  · rw [hstep]
    norm_num [stepReward]
  · rw [hstep]
    norm_num [stepReward]

/-- C2 counterexample: on the initial shared state, where no frame has
ever been captured, the observe handler does not return any response at
all — it panics unwrapping the absent frame (gym.rs line 384) — so in
particular it does not return a NotReady placeholder response. -/
theorem C2_observe_notready_counterexample :
    (initialState Unit).screen = none
    ∧ screen png_stub (initialState Unit) = none
    ∧ ¬ (∃ resp s2, screen png_stub (initialState Unit) = some (resp, s2)) := by
  refine ⟨rfl, rfl, ?_⟩
  rintro ⟨resp, s2, h⟩
  exact Option.noConfusion h

/-- C2 amended: for every call to the observe operation made while the
frame field is still absent, the handler panics on the unwrap of the
absent frame and produces no response (in particular it never returns a
corrupted or zero-length image, and it does not block, the handler
containing no wait loop); it does not return a NotReady placeholder. -/
theorem C2_observe_absent_frame_panics {T : Type}
    (write_png : Image → List Nat) (s : AIGymState T)
    (h : s.screen = none) : screen write_png s = none := by
  simp [screen, h]

/-- C2 witness: the amended theorem applied to the initial state. -/
theorem C2_observe_absent_frame_panics_witness :
    screen png_stub (initialState Unit) = none :=
  C2_observe_absent_frame_panics png_stub (initialState Unit) rfl

/-- C3 counterexample: the claimed guarantee — every returning step
execution has had its submitted action consumed by the simulation before
the response is produced — is false. Starting from the state left over
after a previous epoch (pause flag still true), the handler stores the
forward payload, the gate runs zero ticks, and the first poll iteration
already observes the pause flag true and breaks: step returns the
previous-epoch reward 1 while its own action is still sitting unconsumed
in the pending-action slot. -/
theorem C3_step_freshness_counterexample :
    (¬ (∀ (s0 : AIGymState Unit) (body : List Nat) (out : ℚ × Bool)
          (sf : AIGymState Unit), body ≠ [] →
          StepExec unitParse body s0 out sf →
          sf.__action_unparsed_string = []))
    ∧ StepExec unitParse forwardBytes stalePrevState (1, false)
        staleWrittenState
    ∧ staleWrittenState.__action_unparsed_string = forwardBytes
    ∧ stalePrevState.rewards = staleWrittenState.rewards := by
  have hw : stepWrite forwardBytes stalePrevState = some staleWrittenState := by
    decide
  have hout : (stepReward staleWrittenState.rewards,
      staleWrittenState.is_terminated) = ((1 : ℚ), false) := by
    simp [staleWrittenState, stepReward_singleton]
  have hp : PollRet unitParse staleWrittenState (1, false) staleWrittenState :=
    hout ▸ PollRet.ret staleWrittenState rfl
  have hexec : StepExec unitParse forwardBytes stalePrevState (1, false)
      staleWrittenState :=
    ⟨staleWrittenState, staleWrittenState, hw, Relation.ReflTransGen.refl, hp⟩
  refine ⟨?_, hexec, rfl, rfl⟩
  intro h
  have h2 := h stalePrevState forwardBytes (1, false) staleWrittenState
    (by decide) hexec
  exact absurd h2 (by decide)

/-- C3 amended: the step handler stores the submitted payload into the
pending-action slot (and nothing else) and then polls, re-acquiring the
lock each iteration, until it observes `is_paused` true; the returned
reward and termination flag are exactly those of the state observed at
the break. The check is level-triggered, not edge-triggered: whenever
the observed state is already paused — in particular a state left over
from before the simulation consumed this action — the loop breaks at
once, so the result is not guaranteed to stem from the submitted
action. -/
theorem C3_step_poll_level_triggered :
    (∀ (T : Type) (body : List Nat) (s0 : AIGymState T),
        utf8Valid body = true →
        stepWrite body s0 = some { s0 with __action_unparsed_string := body })
    ∧ (∀ (T : Type) (parse : List Nat → Option T) (s : AIGymState T)
        (out : ℚ × Bool) (sf : AIGymState T),
        PollRet parse s out sf →
        sf.__is_environment_paused = true ∧
          out = (stepReward sf.rewards, sf.is_terminated))
    ∧ (∀ (T : Type) (parse : List Nat → Option T) (s : AIGymState T),
        s.__is_environment_paused = true →
        PollRet parse s (stepReward s.rewards, s.is_terminated) s) := by
  refine ⟨?_, ?_, ?_⟩
  · intro T body s0 h
    simp [stepWrite, h]
  · intro T parse s out sf hp
    induction hp with
    | ret s h => exact ⟨h, rfl⟩
    | skip s s2 sf out h hg hp ih => exact ih
  · intro T parse s h
    exact PollRet.ret s h

/-- C3 witness: the amended theorem applied at the forward payload and at
a concrete paused state. -/
theorem C3_step_poll_level_triggered_witness :
    stepWrite forwardBytes (initialState Unit) =
      some { initialState Unit with __action_unparsed_string := forwardBytes }
    ∧ PollRet unitParse stalePrevState
        (stepReward stalePrevState.rewards, stalePrevState.is_terminated)
        stalePrevState :=
  ⟨C3_step_poll_level_triggered.1 Unit forwardBytes (initialState Unit)
      (by decide),
   C3_step_poll_level_triggered.2.2 Unit unitParse stalePrevState rfl⟩

/-- C4 counterexample: the frame-capture routine acquires the shared
lock on gym.rs line 213 and holds it across the GPU command submission
(line 262) and the blocking waits for copy completion (lines 266-268):
scanning its event sequence finds a GPU submission or blocking wait
performed while the lock is held. -/
theorem C4_save_image_holds_lock_counterexample :
    heldAcrossBlocking save_image_events = true := by decide

/-- C4 amended: the step polling wait re-acquires and releases the lock
on every iteration — each iteration is acquire, read, release — and no
number of wait iterations ever performs a GPU submission or blocking
wait while holding the lock; the frame-capture routine, however, holds
the lock from its first event to its last, across its GPU submission and
its blocking waits. -/
theorem C4_lock_discipline :
    (∀ n : Nat, heldAcrossBlocking (step_wait_events n) = false)
    ∧ (∀ n : Nat, step_wait_events (n + 1) =
        [LockEv.acquire, LockEv.pureOp, LockEv.release] ++ step_wait_events n)
    ∧ heldAcrossBlocking save_image_events = true
    ∧ save_image_events.head? = some LockEv.acquire
    ∧ save_image_events.getLast? = some LockEv.release := by
  refine ⟨?_, fun n => rfl, by decide, rfl, by decide⟩
  intro n
  induction n with
  | zero => rfl
  | succ n ih =>
    simpa [step_wait_events, step_poll_iteration_events, heldAcrossBlocking,
      blockedWhileHeld] using ih

/-- C5 counterexample: on the descriptor with width 0, height 2 and one
layer, the byte-layout computation does not return `bytes_per_row`
equal to width times the format block size (that product is 0, and
`NonZeroU32::new 0` is `None`): `bytes_per_row` is left unset even
though height exceeds 1. -/
theorem C5_layout_counterexample :
    zeroWidthDesc.size.height > 1
    ∧ (texture_image_layout zeroWidthDesc).bytes_per_row = none
    ∧ (texture_image_layout zeroWidthDesc).bytes_per_row ≠
        some (zeroWidthDesc.size.width * zeroWidthDesc.format.block_size) := by
  decide

/-- C5 amended: `bytes_per_row` equals width times the format block size
(as computed in u32 arithmetic) when height exceeds 1 and that product
is nonzero, and is unset when height is at most 1 (when the product
wraps to zero — for instance width 0 — it is unset as well, since it is
wrapped in `NonZeroU32::new`); `rows_per_image` equals height when there
is more than one layer and height is nonzero, and is unset when there is
at most one layer. The u32 product agrees with the exact product
whenever the latter is below 2 ^ 32. -/
theorem C5_texture_image_layout (desc : TextureDescriptor) :
    (desc.size.height > 1 →
      0 < u32_mul desc.size.width desc.format.block_size →
      (texture_image_layout desc).bytes_per_row =
        some (u32_mul desc.size.width desc.format.block_size))
    ∧ (desc.size.height ≤ 1 →
      (texture_image_layout desc).bytes_per_row = none)
    ∧ (desc.size.depth_or_array_layers > 1 → 0 < desc.size.height →
      (texture_image_layout desc).rows_per_image = some desc.size.height)
    ∧ (desc.size.depth_or_array_layers ≤ 1 →
      (texture_image_layout desc).rows_per_image = none)
    ∧ (desc.size.width * desc.format.block_size < 2 ^ 32 →
      u32_mul desc.size.width desc.format.block_size =
        desc.size.width * desc.format.block_size) := by
  refine ⟨?_, ?_, ?_, ?_, ?_⟩
  · intro h1 h2
    simp only [texture_image_layout, NonZeroU32_new, if_pos h1]
    rw [if_neg (by omega)]
  · intro h1
    simp only [texture_image_layout]
    rw [if_neg (by omega)]
  · intro h1 h2
    simp only [texture_image_layout, NonZeroU32_new, if_pos h1]
    rw [if_neg (by omega)]
  · intro h1
    simp only [texture_image_layout]
    rw [if_neg (by omega)]
  · intro h
    exact Nat.mod_eq_of_lt h

/-- C5 witness: the amended theorem applied to the 512 by 512 RGBA
descriptor this repository renders to. -/
theorem C5_texture_image_layout_witness :
    (texture_image_layout desc512).bytes_per_row =
      some (u32_mul desc512.size.width desc512.format.block_size)
    ∧ (texture_image_layout desc512).rows_per_image = none :=
  ⟨(C5_texture_image_layout desc512).1 (by decide) (by decide),
   (C5_texture_image_layout desc512).2.2.2.1 (by decide)⟩

/-- C6: when the awaited buffer-map result reports an error, the
frame-capture routine panics (gym.rs lines 270-273) and publishes
nothing — it produces no updated state at all, so no partially mapped
buffer reaches the shared frame field; and whenever the routine does
publish a state, the map result was a success and the published state is
the input state with exactly the captured frame stored into the frame
field. -/
theorem C6_capture_failure_aborts :
    (∀ (s : AIGymState Unit) (gi : GpuImage) (e : String)
        (bytes : List Nat), save_image s gi (Except.error e) bytes = none)
    ∧ (∀ (s : AIGymState Unit) (gi : GpuImage) (r : Except String Unit)
        (bytes : List Nat) (s2 : AIGymState Unit),
        save_image s gi r bytes = some s2 →
        r = Except.ok () ∧
          s2 = { s with screen := some ⟨gi.width, gi.height, bytes⟩ }) := by
  constructor
  · intro s gi e bytes
    cases h : s.__render_image_handle <;> simp [save_image, h]
  · intro s gi r bytes s2 h
    cases hh : s.__render_image_handle with
    | none => simp [save_image, hh] at h
    | some v =>
      cases r with
      | error e => simp [save_image, hh] at h
      | ok u =>
        cases u
        rw [save_image, hh] at h
        by_cases hlen : gi.width * gi.height * 4 ≤ bytes.length
        · rw [if_pos hlen] at h
          exact ⟨rfl, (Option.some_inj.mp h).symm⟩
        · rw [if_neg hlen] at h
          exact absurd h (by simp)

/-- C6 witness: the publication direction applied at a concrete
successful capture. -/
theorem C6_capture_failure_aborts_witness :
    (Except.ok () : Except String Unit) = Except.ok () ∧
      publishedState =
        { handleState with screen := some ⟨1, 1, [0, 0, 0, 0]⟩ } := by
  exact C6_capture_failure_aborts.2 handleState
    { width := 1, height := 1 } (Except.ok ()) [0, 0, 0, 0]
    publishedState (by decide)

/-- C7: the reset handler sets the reset-request flag, returns the plain
acknowledgement body without any wait, and changes no other field of the
shared state. -/
theorem C7_reset_handler {T : Type} (s : AIGymState T) :
    reset s = ({ s with __request_for_reset := true }, "ok")
    ∧ (reset s).1.__request_for_reset = true
    ∧ (reset s).2 = "ok"
    ∧ (reset s).1.screen = s.screen
    ∧ (reset s).1.__action_unparsed_string = s.__action_unparsed_string
    ∧ (reset s).1.__is_environment_paused = s.__is_environment_paused
    ∧ (reset s).1.is_terminated = s.is_terminated
    ∧ (reset s).1.rewards = s.rewards
    ∧ (reset s).1.action = s.action
    ∧ (reset s).1.__render_target = s.__render_target
    ∧ (reset s).1.__render_image_handle = s.__render_image_handle :=
  ⟨rfl, rfl, rfl, rfl, rfl, rfl, rfl, rfl, rfl, rfl, rfl⟩

/-- C8 counterexample: on a concrete state holding a captured frame, the
observe handler returns the encoded bytes with content type text/plain
(gym.rs line 391), which is not an image content type. -/
theorem C8_observe_mime_counterexample :
    screen png_stub framedState =
      some ({ status := 200, mime := Mime.textPlain,
              body := png_stub testImage }, framedState)
    ∧ Mime.isImage Mime.textPlain = false := by
  exact ⟨rfl, rfl⟩

/-- C8 amended: for every call to the observe operation made when a
frame is present, the handler encodes that frame with the PNG encoder
and returns status 200 with those bytes under content type text/plain
(not an image content type), and it performs no side effects: the shared
state after the call is the state before it. -/
theorem C8_observe_with_frame {T : Type} (write_png : Image → List Nat)
    (s : AIGymState T) (img : Image) (h : s.screen = some img) :
    screen write_png s =
      some ({ status := 200, mime := Mime.textPlain,
              body := write_png img }, s) := by
  simp [screen, h]

/-- C8 witness: the amended theorem applied to a concrete framed state. -/
theorem C8_observe_with_frame_witness :
    screen png_stub framedState =
      some ({ status := 200, mime := Mime.textPlain,
              body := png_stub testImage }, framedState) :=
  C8_observe_with_frame png_stub framedState testImage rfl

/-- C9 counterexample: the byte sequence [255] is not valid UTF-8, and
on it the step handler panics in `String::from_utf8(..).unwrap()`
(gym.rs line 400) instead of forwarding the bytes into the
pending-action slot: the write phase produces no updated state. -/
theorem C9_step_utf8_counterexample :
    utf8Valid [255] = false
    ∧ stepWrite [255] (initialState Unit) = none := by decide

/-- C9 amended: the bridge does not parse the action payload — for every
request body that is valid UTF-8 it stores the raw bytes unchanged into
the pending-action slot, touching no other field — but it is not
byte-agnostic: a body that is not valid UTF-8 makes the handler panic
(reject the request) rather than forward the bytes. -/
theorem C9_step_forwards_utf8_bodies {T : Type} (body : List Nat)
    (s : AIGymState T) :
    (utf8Valid body = true →
      stepWrite body s = some { s with __action_unparsed_string := body })
    ∧ (utf8Valid body = false → stepWrite body s = none) := by
  constructor <;> intro h <;> simp [stepWrite, h]

/-- C9 witness: the amended theorem applied to the forward payload. -/
theorem C9_step_forwards_utf8_bodies_witness :
    stepWrite forwardBytes (initialState Unit) =
      some { initialState Unit with
               __action_unparsed_string := forwardBytes } :=
  (C9_step_forwards_utf8_bodies forwardBytes (initialState Unit)).1 (by decide)

/-- C10: the reset handler is idempotent on the shared state: applying
it twice yields exactly the state of applying it once (and hence the
same response body and the same subsequent observe result). -/
theorem C10_reset_idempotent {T : Type} (s : AIGymState T) :
    (reset (reset s).1).1 = (reset s).1
    ∧ (reset (reset s).1).2 = (reset s).2
    ∧ ∀ write_png : Image → List Nat,
        screen write_png (reset (reset s).1).1 =
          screen write_png (reset s).1 :=
  ⟨rfl, rfl, fun _ => rfl⟩

end BevyStein

